import Mathlib

/-!
Verification of the payment order orchestration engine of the optsms
backend (NestJS/TypeScript).  The definitions below are a shallow
embedding of the order ledger, the order state machine, the three
webhook reconciliation channels and the persistence-sync layer, taken
from src/whatsapp/agents/sales-agent.service.ts and
src/whatsapp/services/orders-sync.service.ts.  External collaborators
(bank rail HTTP clients, LLM text generation, identity directory,
the SQL connection) are modelled as explicit input parameters holding
the value the external call returned; timestamps (Date.now / new Date)
are modelled as a Nat parameter, and randomUUID is modelled as a fresh
identifier drawn from a counter.
-/

namespace OptSMS

/-- The five in-memory payment states (enum PaymentState of whatsapp.types). -/
inductive PaymentState
  | CART
  | AWAITING_QR
  | QR_SENT
  | VERIFYING
  | COMPLETED
deriving DecidableEq, Repr

/-- Settlement rail type carried by x402 payloads: 'fiat' or 'crypto'. -/
inductive RailType
  | fiat
  | crypto
deriving DecidableEq, Repr

/-- X402SettlementData as built by the handlers: success flag, rail type,
optional transaction reference and optional error reason. -/
structure X402SettlementData where
  success : Bool
  railType : RailType
  transaction : Option String
  errorReason : Option String
deriving DecidableEq, Repr

/-- The PaymentOrder record (whatsapp.types), with the fields the sales
agent reads and writes.  orderId is an opaque unique identifier
(randomUUID) modelled as a Nat; lastUpdate is a millisecond timestamp;
chatHistory keeps only the message texts. -/
structure PaymentOrder where
  orderId : Nat
  clientPhone : String
  state : PaymentState
  details : String
  lastUpdate : Nat
  companyId : String
  amount : Option Rat
  userId : Option String
  supabaseOrderId : Option String
  chatHistory : List String
  x402JobId : Option String
  paymentUrl : Option String
  x402Negotiation : Option String
  x402Settlement : Option X402SettlementData
  awaitingTwoFa : Bool
  referredProductId : Option String
  referredCatalogId : Option String
deriving DecidableEq, Repr

/-- JavaScript truthiness of an optional string: undefined and the empty
string are falsy. -/
def jsTruthyS : Option String → Bool
  | none => false
  | some s => !(s == "")

/-- JavaScript truthiness of an optional number: undefined and 0 are falsy. -/
def jsTruthyQ : Option Rat → Bool
  | none => false
  | some a => !(a == 0)

/-- Outbound notification actions handed to the delivery layer
(PaymentWebhookAction items and AgentResponse actions). -/
inductive OutAction
  | text (recipient body : String)
  | image (recipient caption : String)
  | interactiveCta (recipient : String) (withQr : Bool) (body : String)
deriving DecidableEq, Repr

/-- Calls the handlers issue against the persistence-sync service and the
company-integrations service, recorded in the order they are awaited. -/
inductive SideEffect
  | updateStatus (orderId : Nat)
  | syncDraft (orderId : Nat)
  | markTwoFactorAttention (companyId : String) (needsAttention : Bool)
deriving DecidableEq, Repr

/-- ordersById.get: first order of the ledger with the given id. -/
def findById (ledger : List PaymentOrder) (oid : Nat) : Option PaymentOrder :=
  ledger.find? (fun o => o.orderId == oid)

/-- In the source the maps hold one shared mutable object per order;
mutating it updates the ledger in place.  Functionally: replace the
order holding the same id. -/
def setOrder (ledger : List PaymentOrder) (updated : PaymentOrder) :
    List PaymentOrder :=
  ledger.map (fun p => if p.orderId == updated.orderId then updated else p)

/-- The reconciliation reference created for a new order:
details = REF-<first 8 chars of companyId>-<Date.now()>. -/
def mkDetails (companyId : String) (now : Nat) : String :=
  "REF-" ++ (companyId.take 8) ++ "-" ++ toString now

/-- SalesAgentService.createOrder: a fresh order in state CART with no
amount, reference derived from tenant and creation time, and an empty
chat history.  freshId stands for the randomUUID value. -/
def createOrder (companyId clientPhone : String) (freshId : Nat) (now : Nat) :
    PaymentOrder :=
  { orderId := freshId
    clientPhone := clientPhone
    state := PaymentState.CART
    details := mkDetails companyId now
    lastUpdate := now
    companyId := companyId
    amount := none
    userId := none
    supabaseOrderId := none
    chatHistory := []
    x402JobId := none
    paymentUrl := none
    x402Negotiation := none
    x402Settlement := none
    awaitingTwoFa := false
    referredProductId := none
    referredCatalogId := none }

/-! ## Legacy rail webhook (SalesAgentService.handlePaymentWebhook) -/

/-- PaymentWebhookDto of the legacy bank-QR rail. -/
structure PaymentWebhookDto where
  order_id : Nat
  event_type : String
  success : Option Bool
  qr_image_base64 : Option String
  mime_type : Option String
deriving DecidableEq, Repr

/-- Body of handlePaymentWebhook once the order is resolved: sets
lastUpdate, then switches on the event tag.  adminPhones is the list
returned by identityService.getAdminPhones for the 2FA branch. -/
def paymentWebhookStep (order : PaymentOrder) (payload : PaymentWebhookDto)
    (adminPhones : List String) (now : Nat) :
    PaymentOrder × List OutAction × List SideEffect :=
  let o1 := { order with lastUpdate := now }
  if payload.event_type == "QR_GENERATED" then
    ({ o1 with state := PaymentState.QR_SENT },
     [OutAction.text o1.clientPhone
        "¡Tu QR está listo! Escanéalo desde tu app bancaria y confirma cuando hayas pagado.",
      OutAction.image o1.clientPhone ("Orden " ++ toString o1.orderId)],
     [SideEffect.updateStatus o1.orderId])
  else if payload.event_type == "VERIFICATION_RESULT" then
    if payload.success == some true then
      ({ o1 with state := PaymentState.COMPLETED },
       [OutAction.text o1.clientPhone
          "✅ Pago confirmado. ¿Deseas agendar la entrega? Escribe *Agendar entrega* y lo coordinamos."],
       [SideEffect.markTwoFactorAttention o1.companyId false,
        SideEffect.updateStatus o1.orderId])
    else
      ({ o1 with state := PaymentState.CART },
       [OutAction.text o1.clientPhone
          "El banco no pudo confirmar el pago. ¿Deseas que reintente o generar un nuevo QR?"],
       [SideEffect.updateStatus o1.orderId])
  else if payload.event_type == "LOGIN_2FA_REQUIRED" then
    ({ o1 with awaitingTwoFa := true, state := PaymentState.VERIFYING },
     OutAction.text o1.clientPhone
        "El banco pidió una verificación adicional. Un momento mientras validamos seguridad..."
       :: adminPhones.map (fun phone =>
            OutAction.text phone
              ("⚠️ [" ++ o1.companyId ++ "] El banco pide el Token de seguridad. Responde con el código numérico.")),
     [SideEffect.markTwoFactorAttention o1.companyId true,
      SideEffect.updateStatus o1.orderId])
  else
    (o1, [], [])

/-- SalesAgentService.handlePaymentWebhook: resolve by order_id in the
in-memory ledger; an unknown order is logged and acknowledged with zero
actions. -/
def handlePaymentWebhook (ledger : List PaymentOrder)
    (payload : PaymentWebhookDto) (adminPhones : List String) (now : Nat) :
    List PaymentOrder × List OutAction × List SideEffect :=
  match findById ledger payload.order_id with
  | none => (ledger, [], [])
  | some order =>
      let r := paymentWebhookStep order payload adminPhones now
      (setOrder ledger r.1, r.2.1, r.2.2)

/-! ## Unified-rail (x402) webhook (SalesAgentService.handleX402Webhook) -/

/-- The x402 webhook payload shape. -/
structure X402WebhookPayload where
  jobId : String
  event : String
  orderId : Option Nat
  success : Option Bool
  railType : Option RailType
  transaction : Option String
  errorReason : Option String
deriving DecidableEq, Repr

/-- A durable-store order row as read back by OrdersSyncService
(id, company_id, details plus the jsonb metadata field used by
findByX402JobId). -/
structure DbMetadata where
  client_phone : Option String
  dbDetails : Option String
  x402_job_id : Option String
  payment_url : Option String
  x402_negotiation : Option String
  x402_settlement : Option X402SettlementData
  referred_product_id : Option String
  referred_catalog_id : Option String
deriving DecidableEq, Repr

/-- A row of public.orders, with the columns the sync service touches. -/
structure DbOrderRow where
  id : String
  company_id : String
  user_id : Option String
  total_amount : Option Rat
  status : String
  rowDetails : String
  metadata : DbMetadata
deriving DecidableEq, Repr

/-- OrdersSyncService.findByX402JobId: SELECT the first row whose
metadata x402_job_id equals the given job id. -/
def findByX402JobId (db : List DbOrderRow) (jobId : String) :
    Option DbOrderRow :=
  db.find? (fun r => r.metadata.x402_job_id == some jobId)

/-- Order resolution of handleX402Webhook: in-memory scan by x402JobId
first; if absent and the payload carries an orderId, ordersById.get on
that id. -/
def resolveX402Order (ledger : List PaymentOrder)
    (payload : X402WebhookPayload) : Option PaymentOrder :=
  match ledger.find? (fun o => o.x402JobId == some payload.jobId) with
  | some o => some o
  | none =>
      match payload.orderId with
      | some oid => findById ledger oid
      | none => none

/-- Body of handleX402Webhook once the order is resolved: sets lastUpdate
and switches on the event name. -/
def x402Step (order : PaymentOrder) (payload : X402WebhookPayload)
    (now : Nat) : PaymentOrder × List OutAction × List SideEffect :=
  let o1 := { order with lastUpdate := now }
  if payload.event == "X402_PAYMENT_VERIFIED" then
    (o1, [], [])
  else if payload.event == "X402_PAYMENT_SETTLED" then
    (o1, [], [])
  else if payload.event == "X402_PAYMENT_CONFIRMED"
      || payload.event == "FIAT_PAYMENT_CONFIRMED" then
    ({ o1 with state := PaymentState.COMPLETED
              , x402Settlement := some
                  { success := true
                    railType := payload.railType.getD RailType.fiat
                    transaction := payload.transaction
                    errorReason := none } },
     [OutAction.text o1.clientPhone
        "✅ ¡Pago confirmado exitosamente! Gracias por tu compra. ¿Deseas agendar la entrega? Escribe *Agendar entrega*."],
     [SideEffect.markTwoFactorAttention o1.companyId false,
      SideEffect.updateStatus o1.orderId])
  else if payload.event == "X402_PAYMENT_FAILED"
      || payload.event == "FIAT_PAYMENT_FAILED" then
    ({ o1 with state := PaymentState.CART
              , x402Settlement := some
                  { success := false
                    railType := payload.railType.getD RailType.fiat
                    transaction := none
                    errorReason := payload.errorReason } },
     [OutAction.text o1.clientPhone "❌ No se pudo confirmar el pago. ¿Deseas generar un nuevo QR?"],
     [SideEffect.updateStatus o1.orderId])
  else if payload.event == "X402_PAYMENT_EXPIRED" then
    ({ o1 with state := PaymentState.CART
              , x402JobId := none
              , x402Negotiation := none },
     [OutAction.text o1.clientPhone "⏰ El QR de pago expiró. Escribe *Pagar* para generar uno nuevo."],
     [SideEffect.updateStatus o1.orderId])
  else
    (o1, [], [])

/-- SalesAgentService.handleX402Webhook: resolve by jobId, then by the
optional orderId, then consult the durable store by jobId (the result
only selects the warning that is logged); an unresolved event is
acknowledged with zero actions and no ledger change.  The last
component is the list of emitted warning logs. -/
def handleX402Webhook (ledger : List PaymentOrder) (db : List DbOrderRow)
    (payload : X402WebhookPayload) (now : Nat) :
    List PaymentOrder × List OutAction × List SideEffect × List String :=
  match resolveX402Order ledger payload with
  | none =>
      if (findByX402JobId db payload.jobId).isSome then
        (ledger, [], [],
         ["Orden x402 " ++ payload.jobId ++
          " encontrada en DB pero no en memoria. Evento: " ++ payload.event])
      else
        (ledger, [], [],
         ["Orden x402 " ++ payload.jobId ++ " no encontrada. Evento: " ++
          payload.event])
  | some order =>
      let r := x402Step order payload now
      (setOrder ledger r.1, r.2.1, r.2.2, [])

/-! ## Payment-page confirmation (SalesAgentService.confirmOrderFromProxy) -/

/-- The mutation confirmOrderFromProxy applies to a resolved,
not-yet-completed order. -/
def proxyConfirmStep (order : PaymentOrder) (details : Option String)
    (now : Nat) : PaymentOrder :=
  { order with
      lastUpdate := now
      state := PaymentState.COMPLETED
      x402Settlement := some
        { success := true
          railType := RailType.fiat
          transaction :=
            match order.x402Settlement with
            | some s => match s.transaction with
                        | some t => some t
                        | none => details
            | none => details
          errorReason := none } }

/-- SalesAgentService.confirmOrderFromProxy: resolve by orderId with a
fallback match on the order details string; refuse to re-confirm a
COMPLETED order (zero actions, no mutation). -/
def confirmOrderFromProxy (ledger : List PaymentOrder) (orderId : Nat)
    (details : Option String) (now : Nat) :
    List PaymentOrder × List OutAction × List SideEffect :=
  let resolved :=
    match findById ledger orderId with
    | some o => some o
    | none =>
        match details with
        | some d => ledger.find? (fun candidate => candidate.details == d)
        | none => none
  match resolved with
  | none => (ledger, [], [])
  | some order =>
      if order.state == PaymentState.COMPLETED then
        (ledger, [], [])
      else
        let o1 := proxyConfirmStep order details now
        (setOrder ledger o1,
         [OutAction.text o1.clientPhone
            "✅ Confirmamos tu pago desde la página de Optus. ¿Deseas agendar la entrega? Escribe *Agendar entrega* y lo coordinamos."],
         [SideEffect.markTwoFactorAttention o1.companyId false,
          SideEffect.updateStatus o1.orderId])

/-! ## Second-factor interrupt (SalesAgentService.handleTwoFactorReply) -/

/-- A regex word character: letter, digit or underscore. -/
def isWordChar (c : Char) : Bool :=
  c.isAlpha || c.isDigit || c == '_'

/-- Single-pass scanner realising the regex match
sanitized.match of b-boundary, 4 to 8 digits, b-boundary: it returns
the first maximal digit run of length 4..8 whose neighbours on both
sides are non-word characters (or the ends of the text).  run holds
the digits of the candidate run in reverse; prevIsWord records whether
the character before the current position is a word character. -/
def findCodeAux : Bool → List Char → List Char → Option String
  | _, run, [] =>
      if run ≠ [] ∧ 4 ≤ run.length ∧ run.length ≤ 8 then
        some (String.mk run.reverse)
      else none
  | prevIsWord, run, c :: cs =>
      if run ≠ [] then
        if c.isDigit then findCodeAux prevIsWord (c :: run) cs
        else if 4 ≤ run.length ∧ run.length ≤ 8 ∧ ¬ isWordChar c then
          some (String.mk run.reverse)
        else findCodeAux (isWordChar c) [] cs
      else
        if c.isDigit ∧ ¬ prevIsWord then findCodeAux prevIsWord [c] cs
        else findCodeAux (isWordChar c) [] cs

/-- The admin-code extraction of handleTwoFactorReply. -/
def extractCode (text : String) : Option String :=
  findCodeAux false [] text.data

/-- The mutation handleTwoFactorReply applies to the pending order when
the fiat rail accepts the code: clear the flag, keep the order in
VERIFYING. -/
def twoFactorAcceptStep (pending : PaymentOrder) : PaymentOrder :=
  { pending with awaitingTwoFa := false, state := PaymentState.VERIFYING }

/-- SalesAgentService.handleTwoFactorReply.  delivered is the boolean the
fiat rail client returned from submitTwoFactor (the external call).
Returns the updated ledger, the side-effect calls and the reply text
sent back to the admin. -/
def handleTwoFactorReply (ledger : List PaymentOrder)
    (tenantCompanyId : String) (sanitizedText : String) (delivered : Bool) :
    List PaymentOrder × List SideEffect × String :=
  match extractCode sanitizedText with
  | none =>
      (ledger, [], "Necesito el código numérico que envió el banco (4 a 8 dígitos).")
  | some _code =>
      match ledger.find? (fun o =>
          o.awaitingTwoFa && o.companyId == tenantCompanyId) with
      | none =>
          (ledger, [],
           "No hay una verificación pendiente. Espera a que el banco solicite un nuevo código.")
      | some pending =>
          if delivered then
            (setOrder ledger (twoFactorAcceptStep pending),
             [SideEffect.markTwoFactorAttention pending.companyId false,
              SideEffect.updateStatus pending.orderId],
             "Código enviado. El banco reanudará la verificación automáticamente.")
          else
            (ledger, [], "El banco rechazó el código. Intenta nuevamente.")

/-! ## Checkout (SalesAgentService.processCheckout) -/

/-- The value returned by x402PaymentClient.initiatePayment. -/
structure X402InitiateResult where
  ok : Bool
  jobId : Option String
  paymentUrl : Option String
  negotiation : Option String
  qrImageBase64 : Option String
deriving DecidableEq, Repr

/-- The checkout guard of processCheckout:
order.amount falsy or order.amount less-or-equal 0. -/
def needsAmount (amount : Option Rat) : Bool :=
  match amount with
  | none => true
  | some a => decide (a ≤ 0)

/-- Body text of the interactive CTA message (the displayed amount
formatting is elided; only the reference interpolation matters here). -/
def ctaBody (details : String) : String :=
  "🛒 *" ++ details ++ "* Escanea el código QR o presiona el botón para completar tu pago."

/-- SalesAgentService.processCheckout: reject an order without a positive
amount with a need-amount text; otherwise ensure a durable draft id,
call the unified rail (result passed in as x402Result, draftId is the
value syncDraft returned), and on success store the rail artifacts and
move the order to QR_SENT. -/
def needAmountMsg : String :=
  "Para generar el pago necesito el monto total. ¿Cuánto es el total a pagar?"

def processCheckout (order : PaymentOrder) (senderId : String)
    (draftId : Option String) (x402Result : X402InitiateResult) (now : Nat) :
    PaymentOrder × List OutAction × List SideEffect :=
  if needsAmount order.amount then
    ({ order with chatHistory := order.chatHistory ++ [needAmountMsg] },
     [OutAction.text senderId needAmountMsg], [])
  else
    let o1 :=
      if jsTruthyS order.supabaseOrderId then order
      else { order with supabaseOrderId := draftId }
    let effs1 :=
      if jsTruthyS order.supabaseOrderId then []
      else [SideEffect.syncDraft order.orderId]
    if !x402Result.ok || !(x402Result.negotiation.isSome) then
      let errorMsg := "Hubo un problema generando el QR. Por favor intenta nuevamente."
      ({ o1 with chatHistory := o1.chatHistory ++ [errorMsg] },
       [OutAction.text senderId errorMsg], effs1)
    else
      let o2 := { o1 with
                    x402JobId := x402Result.jobId
                    paymentUrl := x402Result.paymentUrl
                    x402Negotiation := x402Result.negotiation
                    state := PaymentState.QR_SENT
                    lastUpdate := now }
      let effs2 := effs1 ++ [SideEffect.updateStatus o2.orderId]
      let body := ctaBody o2.details
      if jsTruthyS x402Result.qrImageBase64 then
        ({ o2 with chatHistory := o2.chatHistory ++ [body] },
         [OutAction.interactiveCta senderId true body], effs2)
      else
        ({ o2 with chatHistory := o2.chatHistory ++ [body] },
         [OutAction.interactiveCta senderId false body], effs2)

/-! ## Persistence sync (OrdersSyncService) -/

/-- PaymentState to order_status mapping of OrdersSyncService.mapState. -/
def mapState : PaymentState → String
  | PaymentState.AWAITING_QR => "AWAITING_QR"
  | PaymentState.QR_SENT => "QR_SENT"
  | PaymentState.VERIFYING => "VERIFYING_PAYMENT"
  | PaymentState.COMPLETED => "COMPLETED"
  | PaymentState.CART => "CART"

/-- The metadata object syncDraft serialises: the full draft shape
(JSON.stringify drops undefined keys, hence the Option fields carry
over directly).  Note there is no x402_settlement key in a draft. -/
def draftMetadata (order : PaymentOrder) : DbMetadata :=
  { client_phone := some order.clientPhone
    dbDetails := some order.details
    x402_job_id := order.x402JobId
    payment_url := order.paymentUrl
    x402_negotiation := order.x402Negotiation
    x402_settlement := none
    referred_product_id := order.referredProductId
    referred_catalog_id := order.referredCatalogId }

/-- OrdersSyncService.syncDraft: skipped when the store is disabled or
the order lacks a truthy userId or amount; otherwise an upsert keyed by
(company_id, details) whose conflict branch wholesale-replaces
total_amount, status and metadata (DO UPDATE SET metadata =
EXCLUDED.metadata).  newId stands for the id the database generates for
a fresh row.  Returns the new table and the id handed back to the
caller. -/
def syncDraft (db : List DbOrderRow) (order : PaymentOrder)
    (enabled : Bool) (newId : String) :
    List DbOrderRow × Option String :=
  if !enabled || !(jsTruthyS order.userId) || !(jsTruthyQ order.amount) then
    (db, order.supabaseOrderId)
  else
    match db.find? (fun r =>
        r.company_id == order.companyId && r.rowDetails == order.details) with
    | some r =>
        (db.map (fun q =>
           if q.company_id == order.companyId && q.rowDetails == order.details
           then { q with total_amount := order.amount
                       , status := mapState order.state
                       , metadata := draftMetadata order }
           else q),
         some r.id)
    | none =>
        (db ++ [{ id := newId
                  company_id := order.companyId
                  user_id := order.userId
                  total_amount := order.amount
                  status := mapState order.state
                  rowDetails := order.details
                  metadata := draftMetadata order }],
         some newId)

/-- The partial metadata patch updateStatus builds: only the truthy
x402 fields of the order are included. -/
def statusPatch (order : PaymentOrder) : DbMetadata :=
  { client_phone := none
    dbDetails := none
    x402_job_id := if jsTruthyS order.x402JobId then order.x402JobId else none
    payment_url := if jsTruthyS order.paymentUrl then order.paymentUrl else none
    x402_negotiation :=
      if jsTruthyS order.x402Negotiation then order.x402Negotiation else none
    x402_settlement := order.x402Settlement
    referred_product_id := none
    referred_catalog_id := none }

/-- Whether the patch carries at least one key
(Object.keys(metadata).length greater than 0). -/
def patchNonEmpty (p : DbMetadata) : Bool :=
  p.x402_job_id.isSome || p.payment_url.isSome ||
  p.x402_negotiation.isSome || p.x402_settlement.isSome

/-- The jsonb concatenation of postgres (stored-metadata || patch): keys
present in the patch win, keys absent from the patch are kept. -/
def mergeMeta (old patch : DbMetadata) : DbMetadata :=
  { client_phone := patch.client_phone.orElse (fun _ => old.client_phone)
    dbDetails := patch.dbDetails.orElse (fun _ => old.dbDetails)
    x402_job_id := patch.x402_job_id.orElse (fun _ => old.x402_job_id)
    payment_url := patch.payment_url.orElse (fun _ => old.payment_url)
    x402_negotiation :=
      patch.x402_negotiation.orElse (fun _ => old.x402_negotiation)
    x402_settlement :=
      patch.x402_settlement.orElse (fun _ => old.x402_settlement)
    referred_product_id :=
      patch.referred_product_id.orElse (fun _ => old.referred_product_id)
    referred_catalog_id :=
      patch.referred_catalog_id.orElse (fun _ => old.referred_catalog_id) }

/-- The per-row effect of the updateStatus UPDATE statement on the row
whose id matches the order's supabaseOrderId. -/
def updateStatusRow (order : PaymentOrder) (r : DbOrderRow) : DbOrderRow :=
  if some r.id == order.supabaseOrderId then
    if patchNonEmpty (statusPatch order) then
      { r with status := mapState order.state
             , metadata := mergeMeta r.metadata (statusPatch order) }
    else
      { r with status := mapState order.state }
  else r

/-- OrdersSyncService.updateStatus: a no-op when the store is disabled or
the order has no truthy supabaseOrderId; otherwise an UPDATE by row id
that sets the status and, when x402 metadata is present on the order,
merges it additively into the stored jsonb column. -/
def updateStatus (db : List DbOrderRow) (order : PaymentOrder)
    (enabled : Bool) : List DbOrderRow :=
  if !enabled || !(jsTruthyS order.supabaseOrderId) then db
  else db.map (updateStatusRow order)

/-! ## Shopping intent (SalesAgentService.handleShoppingIntent)

The LLM-backed collaborators of the handler (intent detection, amount
extraction, response generation), the catalog lookup, the identity
directory and the two rail clients are external; each call's returned
value enters the step as a field of ShoppingOracle. -/

/-- The four intents detectShoppingIntentWithGemini can yield. -/
inductive ShoppingIntent
  | checkout
  | confirm_paid
  | status
  | other
deriving DecidableEq, Repr

/-- A referred catalog product: the context data plus the outcome of the
Meta catalog lookup, the numeric value the price-extraction block
produced, and the result of the purchase-intent test on the user text. -/
structure ReferredProductCtx where
  productRetailerId : String
  catalogId : String
  productFound : Bool
  productName : String
  extractedPrice : Option Rat
  wantsToPayNow : Bool
deriving DecidableEq, Repr

/-- Result of x402PaymentClient.verifyFiatPayment. -/
structure VerifyFiatResult where
  ok : Bool
  settlement : Option X402SettlementData
deriving DecidableEq, Repr

/-- The external inputs consumed by one run of handleShoppingIntent. -/
structure ShoppingOracle where
  userText : String
  referred : Option ReferredProductCtx
  toolHandled : Bool
  extractedAmount : Option Rat
  draftId : Option String
  userId : Option String
  intent : ShoppingIntent
  geminiText : String
  checkoutDraftId : Option String
  x402 : X402InitiateResult
  verify : VerifyFiatResult
deriving DecidableEq, Repr

/-- SalesAgentService.ensureOrderUser: assign the directory-resolved user
id when the order has none. -/
def ensureOrderUser (order : PaymentOrder) (uid : Option String) :
    PaymentOrder :=
  if jsTruthyS order.userId then order
  else if jsTruthyS uid then { order with userId := uid }
  else order

/-- SalesAgentService.handleReferredProduct (order-mutating part, called
with the current order): on a found product it records the product
reference, resets the state to CART, overwrites the order details with
a product description, takes the extracted price as amount when
positive, syncs a draft, and either checks out directly or answers
with the product information. -/
def referredStep (order : PaymentOrder) (rp : ReferredProductCtx)
    (orc : ShoppingOracle) (senderId : String) (now : Nat) :
    PaymentOrder × List OutAction × List SideEffect :=
  if !rp.productFound then
    (order,
     [OutAction.text senderId
        "No pude encontrar información de ese producto. ¿Te gustaría ver otros productos disponibles?"],
     [])
  else
    let o1 := { order with chatHistory := order.chatHistory ++ [orc.userText] }
    let o2 := { o1 with
                  referredProductId := some rp.productRetailerId
                  referredCatalogId := some rp.catalogId
                  state := PaymentState.CART
                  details := "Compra de " ++ rp.productName }
    let o3 :=
      match rp.extractedPrice with
      | some p => if jsTruthyQ (some p) && decide (0 < p)
                  then { o2 with amount := some p } else o2
      | none => o2
    let o4 := { o3 with lastUpdate := now }
    let o5 := ensureOrderUser o4 orc.userId
    let o6 := { o5 with supabaseOrderId := orc.draftId }
    let effs := [SideEffect.syncDraft o6.orderId]
    if rp.wantsToPayNow && jsTruthyQ o6.amount then
      let r := processCheckout o6 senderId orc.checkoutDraftId orc.x402 now
      (r.1, r.2.1, effs ++ r.2.2)
    else
      ({ o6 with chatHistory := o6.chatHistory ++ [orc.geminiText] },
       [OutAction.text senderId orc.geminiText], effs)

/-- The amount-capture block of handleShoppingIntent: when the
extraction yielded a truthy amount different from the stored one,
store it, refresh lastUpdate, resolve the user and sync a draft. -/
def captureAmount (order : PaymentOrder) (orc : ShoppingOracle)
    (now : Nat) : PaymentOrder × List SideEffect :=
  match orc.extractedAmount with
  | some a =>
      if jsTruthyQ (some a) && !(order.amount == some a) then
        let oA := { order with amount := some a, lastUpdate := now }
        let oB := ensureOrderUser oA orc.userId
        ({ oB with supabaseOrderId := orc.draftId },
         [SideEffect.syncDraft oB.orderId])
      else (order, ([] : List SideEffect))
  | none => (order, [])

/-- The main flow of handleShoppingIntent after the tool/product
dispatch: amount capture, amount guard, and the intent branches. -/
def mainFlow (order : PaymentOrder) (orc : ShoppingOracle)
    (senderId : String) (now : Nat) :
    PaymentOrder × List OutAction × List SideEffect :=
  let r3 := captureAmount order orc now
  let o4 := ensureOrderUser r3.1 orc.userId
  let effs0 := r3.2
  if !(jsTruthyQ o4.amount) then
    ({ o4 with chatHistory := o4.chatHistory ++ [orc.geminiText] },
     [OutAction.text senderId orc.geminiText], effs0)
  else if orc.intent == ShoppingIntent.checkout
      && o4.state == PaymentState.CART then
    let r := processCheckout o4 senderId orc.checkoutDraftId orc.x402 now
    (r.1, r.2.1, effs0 ++ r.2.2)
  else if orc.intent == ShoppingIntent.confirm_paid
      && o4.state == PaymentState.QR_SENT then
    let o5 := { o4 with
                  chatHistory := o4.chatHistory ++ [orc.geminiText]
                  state := PaymentState.VERIFYING
                  lastUpdate := now }
    if orc.verify.ok && ((orc.verify.settlement.map (fun s => s.success)).getD false) then
      let o6 := { o5 with state := PaymentState.COMPLETED
                        , x402Settlement := orc.verify.settlement }
      let successMsg :=
        "✅ ¡Pago confirmado! Gracias por tu compra. ¿Deseas agendar la entrega? Escribe *Agendar entrega* y lo coordinamos."
      ({ o6 with chatHistory := o6.chatHistory ++ [successMsg] },
       [OutAction.text senderId orc.geminiText,
        OutAction.text senderId successMsg],
       effs0 ++ [SideEffect.markTwoFactorAttention o6.companyId false,
                 SideEffect.updateStatus o6.orderId])
    else
      let waitMsg :=
        "Verificando con el banco... esto puede tardar hasta 60 segundos. Te avisaré cuando se confirme."
      ({ o5 with chatHistory := o5.chatHistory ++ [waitMsg] },
       [OutAction.text senderId orc.geminiText,
        OutAction.text senderId waitMsg],
       effs0 ++ [SideEffect.updateStatus o5.orderId])
  else
    ({ o4 with chatHistory := o4.chatHistory ++ [orc.geminiText] },
     [OutAction.text senderId orc.geminiText], effs0)

/-- The order mutation one handleShoppingIntent run applies to the
current order (after the user message has been appended to the chat
history): dispatch to the referred-product path, the catalog-tool
early return, or the main flow. -/
def shoppingMutate (order : PaymentOrder) (orc : ShoppingOracle)
    (senderId : String) (now : Nat) :
    PaymentOrder × List OutAction × List SideEffect :=
  match orc.referred with
  | some rp => referredStep order rp orc senderId now
  | none =>
      if orc.toolHandled then
        (order, [OutAction.text senderId orc.geminiText], [])
      else mainFlow order orc senderId now

/-- The slice of the two process-wide maps belonging to one
(companyId, clientPhone) pair: all its orders (ordersById), the
current-cart pointer (ordersByClient at the pair's key), and the
counter supplying fresh (unique) order ids. -/
structure PairState where
  orders : List PaymentOrder
  currentId : Option Nat
  nextId : Nat
deriving DecidableEq, Repr

/-- The ledger slice before any message of the pair. -/
def initialPairState : PairState :=
  { orders := [], currentId := none, nextId := 0 }

/-- Create an order for the pair and repoint the current-cart entry
(ordersByClient.set, ordersById.set inside createOrder). -/
def pairCreate (companyId senderId : String) (st : PairState) (now : Nat) :
    PairState × PaymentOrder :=
  let newO := createOrder companyId senderId st.nextId now
  ({ orders := st.orders ++ [newO]
     currentId := some newO.orderId
     nextId := st.nextId + 1 }, newO)

/-- The order-selection prologue of handleShoppingIntent: reuse the
current order unless it is absent or COMPLETED, then re-create if the
stored order belongs to a different tenant. -/
def selectOrCreate (companyId senderId : String) (st : PairState)
    (now : Nat) : PairState × PaymentOrder :=
  let r1 :=
    match st.currentId.bind (findById st.orders) with
    | none => pairCreate companyId senderId st now
    | some ord =>
        if ord.state == PaymentState.COMPLETED then
          pairCreate companyId senderId st now
        else (st, ord)
  if r1.2.companyId == companyId then r1
  else pairCreate companyId senderId r1.1 now

/-- One run of handleShoppingIntent over the pair's ledger slice. -/
def shoppingStep (companyId senderId : String) (st : PairState)
    (orc : ShoppingOracle) (now : Nat) :
    PairState × List OutAction × List SideEffect :=
  let r1 := selectOrCreate companyId senderId st now
  let o2 := { r1.2 with chatHistory := r1.2.chatHistory ++ [orc.userText] }
  let r2 := shoppingMutate o2 orc senderId now
  ({ r1.1 with orders := setOrder r1.1.orders r2.1 }, r2.2.1, r2.2.2)

/-- A whole conversation: fold the shopping steps over the empty slice. -/
def runShopping (companyId senderId : String)
    (steps : List (ShoppingOracle × Nat)) : PairState :=
  steps.foldl (fun st p => (shoppingStep companyId senderId st p.1 p.2).1)
    initialPairState

/-- At most one order of the list is in a non-terminal state. -/
def AtMostOneActive (l : List PaymentOrder) : Prop :=
  ∀ a ∈ l, ∀ b ∈ l,
    a.state ≠ PaymentState.COMPLETED → b.state ≠ PaymentState.COMPLETED →
    a = b

/-- The invariant the shopping handler maintains on a pair's ledger
slice: ids are below the freshness counter and pairwise distinct, all
orders belong to the pair's tenant, the current-cart pointer is live,
and every non-current order is COMPLETED. -/
def PairInv (companyId : String) (st : PairState) : Prop :=
  (∀ o ∈ st.orders, o.orderId < st.nextId)
  ∧ (∀ o ∈ st.orders, o.companyId = companyId)
  ∧ (st.orders.map (fun o => o.orderId)).Nodup
  ∧ (∀ i, st.currentId = some i → ∃ o ∈ st.orders, o.orderId = i)
  ∧ (∀ o ∈ st.orders, st.currentId ≠ some o.orderId →
       o.state = PaymentState.COMPLETED)

/-! ## Concrete fixtures used by counterexamples and witnesses -/

/-- A freshly created order of tenant-1 (creation time 1000). -/
def cexBase : PaymentOrder := createOrder "tenant-1" "59170001" 7 1000

/-- An order whose settlement method was locked by a successful crypto
settlement on the unified rail (state COMPLETED). -/
def cexSettledCrypto : PaymentOrder :=
  { cexBase with
      state := PaymentState.COMPLETED
      amount := some 150
      x402Settlement := some
        { success := true
          railType := RailType.crypto
          transaction := some "0xabc"
          errorReason := none } }

/-- A failed legacy-rail verification webhook for order 7. -/
def cexFailPayload : PaymentWebhookDto :=
  { order_id := 7
    event_type := "VERIFICATION_RESULT"
    success := some false
    qr_image_base64 := none
    mime_type := none }

/-- A successful legacy-rail verification webhook for order 7. -/
def cexSuccessPayload : PaymentWebhookDto :=
  { order_id := 7
    event_type := "VERIFICATION_RESULT"
    success := some true
    qr_image_base64 := none
    mime_type := none }

/-- A unified-rail VERIFIED webhook for a job the ledger knows. -/
def c10Payload : X402WebhookPayload :=
  { jobId := "job-10"
    event := "X402_PAYMENT_VERIFIED"
    orderId := none
    success := none
    railType := none
    transaction := none
    errorReason := none }

/-- An order carrying rail job job-10. -/
def c10Order : PaymentOrder := { cexBase with x402JobId := some "job-10" }

/-- A unified-rail webhook naming a job no ledger order carries. -/
def c5Payload : X402WebhookPayload :=
  { jobId := "job-55"
    event := "X402_PAYMENT_CONFIRMED"
    orderId := none
    success := none
    railType := some RailType.fiat
    transaction := none
    errorReason := none }

/-- An order of tenant-1 paused for a second-factor code. -/
def c6Pending : PaymentOrder :=
  { cexBase with
      orderId := 21
      amount := some 150
      state := PaymentState.VERIFYING
      awaitingTwoFa := true }

/-- A referred catalog product used to show the reference overwrite. -/
def cexReferred : ReferredProductCtx :=
  { productRetailerId := "sku-1"
    catalogId := "cat-1"
    productFound := true
    productName := "Polera"
    extractedPrice := some 150
    wantsToPayNow := false }

/-- Oracle values for a referred-product shopping message. -/
def cexOracle : ShoppingOracle :=
  { userText := "quiero esta polera"
    referred := some cexReferred
    toolHandled := false
    extractedAmount := none
    draftId := some "row-9"
    userId := some "u1"
    intent := ShoppingIntent.other
    geminiText := "ok"
    checkoutDraftId := none
    x402 := { ok := false, jobId := none, paymentUrl := none
              negotiation := none, qrImageBase64 := none }
    verify := { ok := false, settlement := none } }

/-- A durable-store row for tenant-1 before any settlement is written. -/
def c8Row : DbOrderRow :=
  { id := "row-1"
    company_id := "tenant-1"
    user_id := some "u1"
    total_amount := some 150
    status := "QR_SENT"
    rowDetails := "REF-tenant-1-1000"
    metadata :=
      { client_phone := some "59170001"
        dbDetails := some "REF-tenant-1-1000"
        x402_job_id := some "job-1"
        payment_url := some "https://pay.example/1"
        x402_negotiation := some "neg-1"
        x402_settlement := none
        referred_product_id := none
        referred_catalog_id := none } }

/-- The in-memory order after its settlement was confirmed; updateStatus
for it writes the settlement record into row-1. -/
def c8OrderSettled : PaymentOrder :=
  { cexBase with
      state := PaymentState.COMPLETED
      amount := some 150
      userId := some "u1"
      supabaseOrderId := some "row-1"
      details := "REF-tenant-1-1000"
      x402JobId := some "job-1"
      x402Settlement := some
        { success := true
          railType := RailType.fiat
          transaction := some "tx-77"
          errorReason := none } }

/-- The same logical order synced again later as a draft (amount edited,
settlement field empty in memory). -/
def c8OrderLater : PaymentOrder :=
  { c8OrderSettled with
      state := PaymentState.CART
      amount := some 200
      x402Settlement := none }

/-- The settled order with its in-memory settlement cleared: a partial
status sync that must not erase the stored settlement. -/
def c8OrderPartial : PaymentOrder :=
  { c8OrderSettled with x402Settlement := none }

/-- Oracle for a demo step: send amount 100 and check out; the rail
returns a negotiation. -/
def demoCheckoutOracle : ShoppingOracle :=
  { userText := "pagar 100"
    referred := none
    toolHandled := false
    extractedAmount := some 100
    draftId := some "row-7"
    userId := some "u1"
    intent := ShoppingIntent.checkout
    checkoutDraftId := some "row-7"
    geminiText := "claro"
    x402 := { ok := true, jobId := some "job-77"
              paymentUrl := some "https://pay.example/77"
              negotiation := some "neg-77"
              qrImageBase64 := some "QRDATA" }
    verify := { ok := false, settlement := none } }

/-- Oracle for a demo step: the buyer confirms payment and the fiat rail
verifies it. -/
def demoConfirmOracle : ShoppingOracle :=
  { demoCheckoutOracle with
      userText := "ya pagué"
      extractedAmount := none
      intent := ShoppingIntent.confirm_paid
      verify := { ok := true
                  settlement := some
                    { success := true
                      railType := RailType.fiat
                      transaction := some "tx-9"
                      errorReason := none } } }

/-- A three-message demo conversation: checkout, confirmation, and a new
message that opens a fresh cart after completion. -/
def demoSteps : List (ShoppingOracle × Nat) :=
  [(demoCheckoutOracle, 1000), (demoConfirmOracle, 2000),
   ({ demoCheckoutOracle with extractedAmount := none
                            , intent := ShoppingIntent.other }, 3000)]

/-! ## Theorems -/

/-- C10: a unified-rail webhook resolving to an in-memory order and
carrying X402_PAYMENT_VERIFIED or X402_PAYMENT_SETTLED changes only the
order's lastUpdate field, returns zero outbound actions and issues no
durable-store update (and no side-effect call at all). -/
theorem x402_verified_settled_only_touches_lastUpdate
    (ledger : List PaymentOrder) (db : List DbOrderRow)
    (payload : X402WebhookPayload) (now : Nat) (o : PaymentOrder)
    (hres : resolveX402Order ledger payload = some o)
    (hev : payload.event = "X402_PAYMENT_VERIFIED" ∨
           payload.event = "X402_PAYMENT_SETTLED") :
    handleX402Webhook ledger db payload now =
      (setOrder ledger { o with lastUpdate := now }, [], [], []) := by
  unfold handleX402Webhook
  rw [hres]
  unfold x402Step
  rcases hev with h | h <;> simp [h]

/-- C10 witness: a VERIFIED event for job-10 on the concrete ledger. -/
theorem x402_verified_settled_only_touches_lastUpdate_witness :
    handleX402Webhook [c10Order] [] c10Payload 2000 =
      (setOrder [c10Order] { c10Order with lastUpdate := 2000 }, [], [], []) :=
  x402_verified_settled_only_touches_lastUpdate [c10Order] [] c10Payload 2000
    c10Order (by rfl) (Or.inl rfl)

/-- C5: unified-rail webhook resolution tries the in-memory ledger by
railJobId first, then by the orderId the payload may carry, and for an
unresolved event the handler consults the durable store by railJobId to
pick its warning, mutates no order, and returns zero outbound actions. -/
theorem x402_resolution_order (ledger : List PaymentOrder)
    (db : List DbOrderRow) (payload : X402WebhookPayload) (now : Nat) :
    (∀ o, ledger.find? (fun q => q.x402JobId == some payload.jobId) = some o →
        resolveX402Order ledger payload = some o)
    ∧ (ledger.find? (fun q => q.x402JobId == some payload.jobId) = none →
        ∀ oid, payload.orderId = some oid →
          resolveX402Order ledger payload = findById ledger oid)
    ∧ (resolveX402Order ledger payload = none →
        handleX402Webhook ledger db payload now =
          (ledger, [], [],
           [if (findByX402JobId db payload.jobId).isSome then
              "Orden x402 " ++ payload.jobId ++
                " encontrada en DB pero no en memoria. Evento: " ++ payload.event
            else
              "Orden x402 " ++ payload.jobId ++ " no encontrada. Evento: " ++
                payload.event])) := by
  refine ⟨?_, ?_, ?_⟩
  · intro o h
    unfold resolveX402Order
    rw [h]
  · intro h oid hoid
    unfold resolveX402Order
    rw [h, hoid]
  · intro h
    unfold handleX402Webhook
    rw [h]
    by_cases hdb : (findByX402JobId db payload.jobId).isSome <;> simp [hdb]

/-- C5 witness: an event for job-55 that no ledger order carries. -/
theorem x402_resolution_order_witness :
    handleX402Webhook [c10Order] [] c5Payload 9 =
      ([c10Order], [], [],
       [if (findByX402JobId [] c5Payload.jobId).isSome then
          "Orden x402 " ++ c5Payload.jobId ++
            " encontrada en DB pero no en memoria. Evento: " ++ c5Payload.event
        else
          "Orden x402 " ++ c5Payload.jobId ++ " no encontrada. Evento: " ++
            c5Payload.event]) :=
  (x402_resolution_order [c10Order] [] c5Payload 9).2.2 (by rfl)

/-- C1 counterexample: cexSettledCrypto is COMPLETED with its settlement
method locked by a successful crypto settlement, yet a subsequent
legacy-rail (fiat) webhook reporting a failed verification moves its
state back to CART — the other rail's event is not inert. -/
theorem settlement_method_not_locked_cex :
    cexSettledCrypto.state = PaymentState.COMPLETED
    ∧ cexSettledCrypto.x402Settlement =
        some { success := true, railType := RailType.crypto,
               transaction := some "0xabc", errorReason := none }
    ∧ ((handlePaymentWebhook [cexSettledCrypto] cexFailPayload [] 2000).1.head?.map
         (fun o => o.state)) = some PaymentState.CART := by
  exact ⟨rfl, rfl, rfl⟩

/-- C1 as amended: the code implements no method lock — after a
successful crypto settlement froze x402Settlement with the order
COMPLETED, a legacy-rail VERIFICATION_RESULT webhook that is not a
success is still fully applied, moving the state back to CART; legacy
events never write the settlement record or the amount. -/
theorem other_rail_events_applied_after_lock
    (order : PaymentOrder) (payload : PaymentWebhookDto)
    (phones : List String) (now : Nat) (s : X402SettlementData)
    (_hset : order.x402Settlement = some s) (_hsucc : s.success = true)
    (_hcrypto : s.railType = RailType.crypto)
    (_hst : order.state = PaymentState.COMPLETED)
    (hev : payload.event_type = "VERIFICATION_RESULT")
    (hfail : payload.success ≠ some true) :
    (paymentWebhookStep order payload phones now).1.state = PaymentState.CART
    ∧ (paymentWebhookStep order payload phones now).1.x402Settlement =
        order.x402Settlement
    ∧ (paymentWebhookStep order payload phones now).1.amount = order.amount := by
  have h3 : (payload.success == some true) = false := by
    cases hp : payload.success with
    | none => rfl
    | some b =>
        cases b with
        | true => exact absurd hp hfail
        | false => rfl
  unfold paymentWebhookStep
  simp [hev, h3]

/-- C1 amended witness: the concrete crypto-settled order and the
concrete failed legacy webhook. -/
theorem other_rail_events_applied_after_lock_witness :
    (paymentWebhookStep cexSettledCrypto cexFailPayload [] 2000).1.state =
        PaymentState.CART
    ∧ (paymentWebhookStep cexSettledCrypto cexFailPayload [] 2000).1.x402Settlement =
        cexSettledCrypto.x402Settlement
    ∧ (paymentWebhookStep cexSettledCrypto cexFailPayload [] 2000).1.amount =
        cexSettledCrypto.amount :=
  other_rail_events_applied_after_lock cexSettledCrypto cexFailPayload [] 2000
    { success := true, railType := RailType.crypto,
      transaction := some "0xabc", errorReason := none }
    (by rfl) (by rfl) (by rfl) (by rfl) (by rfl) (by decide)

/-- C2 counterexample: for a COMPLETED order, a further legacy-rail
webhook still mutates lastUpdate and emits an outbound notification —
completion is not absorbing on that channel. -/
theorem completion_not_absorbing_cex :
    cexSettledCrypto.state = PaymentState.COMPLETED
    ∧ (handlePaymentWebhook [cexSettledCrypto] cexSuccessPayload [] 2000).2.1 ≠ []
    ∧ ((handlePaymentWebhook [cexSettledCrypto] cexSuccessPayload [] 2000).1.head?.map
         (fun o => o.lastUpdate)) = some 2000
    ∧ cexSettledCrypto.lastUpdate = 1000 := by
  refine ⟨rfl, ?_, rfl, rfl⟩
  decide

/-- C2 as amended: only the payment-page confirmation channel
short-circuits on COMPLETED — confirmOrderFromProxy for a COMPLETED
order leaves the whole ledger unchanged (hence state, lastUpdate and
settlement method) and produces zero outbound actions and zero
side-effect calls; the legacy and unified-rail webhook handlers
re-process events for a COMPLETED order. -/
theorem proxy_confirmation_idempotent
    (ledger : List PaymentOrder) (orderId : Nat) (d : Option String)
    (now : Nat) (order : PaymentOrder)
    (hfind : findById ledger orderId = some order)
    (hst : order.state = PaymentState.COMPLETED) :
    confirmOrderFromProxy ledger orderId d now = (ledger, [], []) := by
  unfold confirmOrderFromProxy
  simp only [hfind]
  simp [hst]

/-- C2 amended witness: the proxy confirmation for the concrete
COMPLETED order is a no-op. -/
theorem proxy_confirmation_idempotent_witness :
    confirmOrderFromProxy [cexSettledCrypto] 7 none 2000 =
      ([cexSettledCrypto], [], []) :=
  proxy_confirmation_idempotent [cexSettledCrypto] 7 none 2000 cexSettledCrypto
    (by rfl) (by rfl)

/-- C6: an admin-submitted numeric code for a tenant with a pending
second-factor order: on rail acceptance the flag is cleared with the
state left at VERIFYING and the tenant's attention flag is cleared; on
rejection the ledger is untouched and the admin is told to retry. -/
theorem two_factor_submission
    (ledger : List PaymentOrder) (tenant text : String)
    (pending : PaymentOrder) (c : String)
    (hcode : extractCode text = some c)
    (hfind : ledger.find?
        (fun o => o.awaitingTwoFa && o.companyId == tenant) = some pending) :
    handleTwoFactorReply ledger tenant text true =
      (setOrder ledger (twoFactorAcceptStep pending),
       [SideEffect.markTwoFactorAttention pending.companyId false,
        SideEffect.updateStatus pending.orderId],
       "Código enviado. El banco reanudará la verificación automáticamente.")
    ∧ (twoFactorAcceptStep pending).awaitingTwoFa = false
    ∧ (twoFactorAcceptStep pending).state = PaymentState.VERIFYING
    ∧ handleTwoFactorReply ledger tenant text false =
        (ledger, [], "El banco rechazó el código. Intenta nuevamente.") := by
  unfold handleTwoFactorReply
  rw [hcode, hfind]
  exact ⟨rfl, rfl, rfl, rfl⟩

/-- C6 witness: tenant-1's pending order 21 and the code 482913. -/
theorem two_factor_submission_witness :
    handleTwoFactorReply [c6Pending] "tenant-1" "482913" true =
      (setOrder [c6Pending] (twoFactorAcceptStep c6Pending),
       [SideEffect.markTwoFactorAttention c6Pending.companyId false,
        SideEffect.updateStatus c6Pending.orderId],
       "Código enviado. El banco reanudará la verificación automáticamente.")
    ∧ handleTwoFactorReply [c6Pending] "tenant-1" "482913" false =
        ([c6Pending], [], "El banco rechazó el código. Intenta nuevamente.") :=
  ⟨(two_factor_submission [c6Pending] "tenant-1" "482913" c6Pending "482913"
      (by rfl) (by rfl)).1,
   (two_factor_submission [c6Pending] "tenant-1" "482913" c6Pending "482913"
      (by rfl) (by rfl)).2.2.2⟩

/-- Field-frame of ensureOrderUser: only userId may change. -/
theorem ensureOrderUser_frame (o : PaymentOrder) (uid : Option String) :
    (ensureOrderUser o uid).state = o.state
    ∧ (ensureOrderUser o uid).amount = o.amount
    ∧ (ensureOrderUser o uid).orderId = o.orderId
    ∧ (ensureOrderUser o uid).companyId = o.companyId
    ∧ (ensureOrderUser o uid).details = o.details := by
  unfold ensureOrderUser
  split_ifs <;> exact ⟨rfl, rfl, rfl, rfl, rfl⟩

/-- Field-frame of the amount-capture block: state, identity and the
reference are untouched. -/
theorem captureAmount_frame (o : PaymentOrder) (orc : ShoppingOracle)
    (now : Nat) :
    (captureAmount o orc now).1.state = o.state
    ∧ (captureAmount o orc now).1.orderId = o.orderId
    ∧ (captureAmount o orc now).1.companyId = o.companyId
    ∧ (captureAmount o orc now).1.details = o.details := by
  unfold captureAmount
  cases horc : orc.extractedAmount with
  | none => exact ⟨rfl, rfl, rfl, rfl⟩
  | some a =>
      dsimp only
      split_ifs with h
      · have he := ensureOrderUser_frame
          { o with amount := some a, lastUpdate := now } orc.userId
        exact ⟨he.1, he.2.2.1, he.2.2.2.1, he.2.2.2.2⟩
      · exact ⟨rfl, rfl, rfl, rfl⟩

/-- The amount after capture is the stored one or the extracted one. -/
theorem captureAmount_amount (o : PaymentOrder) (orc : ShoppingOracle)
    (now : Nat) :
    (captureAmount o orc now).1.amount = o.amount ∨
    ∃ a, orc.extractedAmount = some a ∧
      (captureAmount o orc now).1.amount = some a := by
  unfold captureAmount
  cases horc : orc.extractedAmount with
  | none => exact Or.inl rfl
  | some a =>
      dsimp only
      split_ifs with h
      · refine Or.inr ⟨a, rfl, ?_⟩
        have he := ensureOrderUser_frame
          { o with amount := some a, lastUpdate := now } orc.userId
        exact he.2.1
      · exact Or.inl rfl

/-- Field-frame of processCheckout: identity and the reference are
untouched. -/
theorem processCheckout_frame (o : PaymentOrder) (senderId : String)
    (draftId : Option String) (xr : X402InitiateResult) (now : Nat) :
    (processCheckout o senderId draftId xr now).1.orderId = o.orderId
    ∧ (processCheckout o senderId draftId xr now).1.companyId = o.companyId
    ∧ (processCheckout o senderId draftId xr now).1.details = o.details := by
  unfold processCheckout
  split_ifs <;> exact ⟨rfl, rfl, rfl⟩

/-- C4: a checkout trigger on an order without a positive amount answers
with the need-amount text, changes no order field except appending that
text to the chat history, issues no side-effect call, and in particular
leaves the state unchanged. -/
theorem checkout_amount_guard
    (order : PaymentOrder) (senderId : String) (draftId : Option String)
    (x402Result : X402InitiateResult) (now : Nat)
    (h : ∀ a, order.amount = some a → a ≤ 0) :
    processCheckout order senderId draftId x402Result now =
      ({ order with chatHistory := order.chatHistory ++ [needAmountMsg] },
       [OutAction.text senderId needAmountMsg], [])
    ∧ (processCheckout order senderId draftId x402Result now).1.state =
        order.state
    ∧ (∀ orc : ShoppingOracle, orc.intent = ShoppingIntent.checkout →
        (∀ a, orc.extractedAmount = some a → a ≤ 0) →
        (mainFlow order orc senderId now).1.state = order.state) := by
  have hna : needsAmount order.amount = true := by
    unfold needsAmount
    cases ha : order.amount with
    | none => rfl
    | some a => exact decide_eq_true (h a ha)
  have heq : processCheckout order senderId draftId x402Result now =
      ({ order with chatHistory := order.chatHistory ++ [needAmountMsg] },
       [OutAction.text senderId needAmountMsg], []) := by
    unfold processCheckout
    rw [if_pos hna]
  refine ⟨heq, by rw [heq], ?_⟩
  intro orc hintent hextract
  have hc := captureAmount_frame order orc now
  have he := ensureOrderUser_frame (captureAmount order orc now).1 orc.userId
  have hstate :
      (ensureOrderUser (captureAmount order orc now).1 orc.userId).state =
        order.state := he.1.trans hc.1
  have hamount : ∀ a,
      (ensureOrderUser (captureAmount order orc now).1 orc.userId).amount =
        some a → a ≤ 0 := by
    intro a ha
    rw [he.2.1] at ha
    rcases captureAmount_amount order orc now with hsame | ⟨b, hb1, hb2⟩
    · rw [hsame] at ha
      exact h a ha
    · rw [hb2] at ha
      injection ha with hba
      exact hextract a (hba ▸ hb1)
  have hna2 : needsAmount
      (ensureOrderUser (captureAmount order orc now).1 orc.userId).amount =
        true := by
    unfold needsAmount
    cases ha : (ensureOrderUser (captureAmount order orc now).1 orc.userId).amount with
    | none => rfl
    | some a => exact decide_eq_true (hamount a ha)
  unfold mainFlow
  dsimp only
  split_ifs with g1 g2 g3 g4
  · exact hstate
  · have : (processCheckout
        (ensureOrderUser (captureAmount order orc now).1 orc.userId) senderId
        orc.checkoutDraftId orc.x402 now).1.state =
        (ensureOrderUser (captureAmount order orc now).1 orc.userId).state := by
      unfold processCheckout
      rw [if_pos hna2]
    exact this.trans hstate
  · rw [hintent] at g3
    simp at g3
  · rw [hintent] at g3
    simp at g3
  · exact hstate

/-- C4 witness: checkout on a fresh amount-less order, both through
processCheckout and through the shopping main flow. -/
theorem checkout_amount_guard_witness :
    processCheckout cexBase "59170001" none
        { ok := true, jobId := some "j", paymentUrl := some "u",
          negotiation := some "n", qrImageBase64 := none } 2000 =
      ({ cexBase with chatHistory := cexBase.chatHistory ++ [needAmountMsg] },
       [OutAction.text "59170001" needAmountMsg], [])
    ∧ (mainFlow cexBase { demoCheckoutOracle with extractedAmount := none }
        "59170001" 2000).1.state = cexBase.state :=
  ⟨(checkout_amount_guard cexBase "59170001" none
      { ok := true, jobId := some "j", paymentUrl := some "u",
        negotiation := some "n", qrImageBase64 := none } 2000
      (by intro a ha; cases ha)).1,
   (checkout_amount_guard cexBase "59170001" none
      { ok := true, jobId := some "j", paymentUrl := some "u",
        negotiation := some "n", qrImageBase64 := none } 2000
      (by intro a ha; cases ha)).2.2
     { demoCheckoutOracle with extractedAmount := none } (by rfl)
     (by intro a ha; cases ha)⟩

/-- C8 counterexample: updateStatus writes the settlement record into
row-1, and a later syncDraft for the same (company, details) key
wholesale-replaces the metadata, erasing the stored settlement — a
later partial update does erase a field written by an earlier one. -/
theorem settlement_erased_by_later_sync_cex :
    ((updateStatus [c8Row] c8OrderSettled true).head?.map
        (fun r => r.metadata.x402_settlement)) =
      some (some { success := true, railType := RailType.fiat,
                   transaction := some "tx-77", errorReason := none })
    ∧ (((syncDraft (updateStatus [c8Row] c8OrderSettled true) c8OrderLater
          true "row-2").1.head?.map (fun r => r.metadata.x402_settlement)) =
        some none) := by
  exact ⟨rfl, rfl⟩

/-- C8 as amended: only updateStatus merges additively — a status sync
whose order lacks a metadata field preserves the stored value of that
field (in particular a stored settlement survives every later
updateStatus), while syncDraft replaces the metadata wholesale and
never carries a settlement, so a stored settlement does not survive a
later syncDraft. -/
theorem update_status_additive (r : DbOrderRow) (order : PaymentOrder) :
    (order.x402Settlement = none →
       (updateStatusRow order r).metadata.x402_settlement =
         r.metadata.x402_settlement)
    ∧ (jsTruthyS order.x402JobId = false →
       (updateStatusRow order r).metadata.x402_job_id =
         r.metadata.x402_job_id)
    ∧ (jsTruthyS order.paymentUrl = false →
       (updateStatusRow order r).metadata.payment_url =
         r.metadata.payment_url)
    ∧ (jsTruthyS order.x402Negotiation = false →
       (updateStatusRow order r).metadata.x402_negotiation =
         r.metadata.x402_negotiation)
    ∧ (updateStatusRow order r).metadata.client_phone =
        r.metadata.client_phone
    ∧ (updateStatusRow order r).metadata.dbDetails = r.metadata.dbDetails
    ∧ (updateStatusRow order r).metadata.referred_product_id =
        r.metadata.referred_product_id
    ∧ (updateStatusRow order r).metadata.referred_catalog_id =
        r.metadata.referred_catalog_id := by
  refine ⟨?_, ?_, ?_, ?_, ?_, ?_, ?_, ?_⟩ <;>
    (try intro h) <;> unfold updateStatusRow <;> split_ifs <;>
    simp_all [mergeMeta, statusPatch, Option.orElse]

/-- C8 amended witness: the partial status sync (settlement cleared in
memory) touches row-1 but keeps its stored settlement. -/
theorem update_status_additive_witness :
    (updateStatusRow c8OrderPartial c8Row).metadata.x402_settlement =
      c8Row.metadata.x402_settlement
    ∧ (updateStatusRow c8OrderPartial c8Row).metadata.client_phone =
      c8Row.metadata.client_phone :=
  ⟨(update_status_additive c8Row c8OrderPartial).1 (by rfl),
   (update_status_additive c8Row c8OrderPartial).2.2.2.2.1⟩

/-- C7 counterexample: two orders of the same tenant created in the same
millisecond receive the same reference, and the referred-product
handler overwrites the reference assigned at creation with a
product-derived description — the reference is neither unique per
tenant nor stable for the life of the order. -/
theorem reference_not_stable_cex :
    (createOrder "tenant-1" "p1" 0 1000).details =
      (createOrder "tenant-1" "p2" 1 1000).details
    ∧ (referredStep cexBase cexReferred cexOracle "59170001" 2000).1.details ≠
        cexBase.details := by
  exact ⟨rfl, by decide⟩

/-- The main shopping flow never touches the reference. -/
theorem mainFlow_details (o : PaymentOrder) (orc : ShoppingOracle)
    (senderId : String) (now : Nat) :
    (mainFlow o orc senderId now).1.details = o.details := by
  have hc := captureAmount_frame o orc now
  have he := ensureOrderUser_frame (captureAmount o orc now).1 orc.userId
  have hde : (ensureOrderUser (captureAmount o orc now).1 orc.userId).details =
      o.details := by rw [he.2.2.2.2, hc.2.2.2]
  unfold mainFlow
  dsimp only
  split_ifs <;>
    first
      | exact hde
      | exact ((processCheckout_frame _ _ _ _ _).2.2).trans hde

/-- The shopping mutation without a referred product never touches the
reference. -/
theorem shoppingMutate_details (o : PaymentOrder) (orc : ShoppingOracle)
    (senderId : String) (now : Nat) (horc : orc.referred = none) :
    (shoppingMutate o orc senderId now).1.details = o.details := by
  unfold shoppingMutate
  rw [horc]
  dsimp only
  split_ifs
  · rfl
  · exact mainFlow_details o orc senderId now

/-- C7 as amended: the reference assigned at creation is preserved by
every handler of the engine — both webhook channels, the payment-page
confirmation, the second-factor flow, checkout and the whole
non-referred shopping flow — but handleReferredProduct overwrites it
with a product description, and orders of one tenant created in the
same millisecond share a reference, so neither lifetime stability nor
tenant-uniqueness holds unconditionally. -/
theorem reference_stable_outside_referred_product
    (o : PaymentOrder) (lp : PaymentWebhookDto) (phones : List String)
    (xp : X402WebhookPayload) (d : Option String) (senderId : String)
    (draftId : Option String) (xr : X402InitiateResult)
    (orc : ShoppingOracle) (now : Nat) (horc : orc.referred = none) :
    (paymentWebhookStep o lp phones now).1.details = o.details
    ∧ (x402Step o xp now).1.details = o.details
    ∧ (proxyConfirmStep o d now).details = o.details
    ∧ (twoFactorAcceptStep o).details = o.details
    ∧ (processCheckout o senderId draftId xr now).1.details = o.details
    ∧ (shoppingMutate o orc senderId now).1.details = o.details := by
  refine ⟨?_, ?_, rfl, rfl, (processCheckout_frame o senderId draftId xr now).2.2,
    shoppingMutate_details o orc senderId now horc⟩
  · unfold paymentWebhookStep
    split_ifs <;> rfl
  · unfold x402Step
    split_ifs <;> rfl

/-- C7 amended witness: the concrete handlers leave the reference of the
crypto-settled order untouched. -/
theorem reference_stable_outside_referred_product_witness :
    (paymentWebhookStep cexSettledCrypto cexSuccessPayload [] 2000).1.details =
      cexSettledCrypto.details
    ∧ (shoppingMutate cexSettledCrypto demoCheckoutOracle "59170001" 2000).1.details =
      cexSettledCrypto.details :=
  ⟨(reference_stable_outside_referred_product cexSettledCrypto cexSuccessPayload
      [] c10Payload none "59170001" none demoCheckoutOracle.x402
      demoCheckoutOracle 2000 (by rfl)).1,
   (reference_stable_outside_referred_product cexSettledCrypto cexSuccessPayload
      [] c10Payload none "59170001" none demoCheckoutOracle.x402
      demoCheckoutOracle 2000 (by rfl)).2.2.2.2.2⟩

/-- Membership after an in-place update: each element is the new value
or an untouched element with a different id. -/
theorem mem_setOrder {l : List PaymentOrder} {u p : PaymentOrder}
    (hp : p ∈ setOrder l u) : p = u ∨ (p ∈ l ∧ p.orderId ≠ u.orderId) := by
  unfold setOrder at hp
  rcases List.mem_map.1 hp with ⟨q, hq, heq⟩
  by_cases h : q.orderId == u.orderId
  · rw [if_pos h] at heq
    exact Or.inl heq.symm
  · rw [if_neg h] at heq
    subst heq
    exact Or.inr ⟨hq, by simpa using h⟩

/-- The updated value is present whenever some element had its id. -/
theorem setOrder_mem_self {l : List PaymentOrder} {u : PaymentOrder}
    (h : ∃ p ∈ l, p.orderId = u.orderId) : u ∈ setOrder l u := by
  rcases h with ⟨p, hp, hid⟩
  unfold setOrder
  exact List.mem_map.2 ⟨p, hp, by rw [if_pos (beq_iff_eq.mpr hid)]⟩

/-- An in-place update never changes the id sequence of the ledger. -/
theorem setOrder_map_orderId (l : List PaymentOrder) (u : PaymentOrder) :
    (setOrder l u).map (fun o => o.orderId) = l.map (fun o => o.orderId) := by
  unfold setOrder
  rw [List.map_map]
  refine List.map_congr_left ?_
  intro p _
  by_cases h : p.orderId == u.orderId
  · simp only [Function.comp_apply, if_pos h]
    exact (beq_iff_eq.mp h).symm
  · simp only [Function.comp_apply, if_neg h]

/-- The referred-product path keeps the order's identity fields. -/
theorem referredStep_identity (o : PaymentOrder) (rp : ReferredProductCtx)
    (orc : ShoppingOracle) (senderId : String) (now : Nat) :
    (referredStep o rp orc senderId now).1.orderId = o.orderId
    ∧ (referredStep o rp orc senderId now).1.companyId = o.companyId := by
  unfold referredStep
  split_ifs with h1
  · exact ⟨rfl, rfl⟩
  · cases hp : rp.extractedPrice with
    | none =>
        dsimp only
        split_ifs with h2
        · exact ⟨((processCheckout_frame _ _ _ _ _).1).trans
              (ensureOrderUser_frame _ _).2.2.1,
            ((processCheckout_frame _ _ _ _ _).2.1).trans
              (ensureOrderUser_frame _ _).2.2.2.1⟩
        · exact ⟨(ensureOrderUser_frame _ _).2.2.1,
            (ensureOrderUser_frame _ _).2.2.2.1⟩
    | some p =>
        dsimp only
        split_ifs with h2 h3
        all_goals
          first
            | exact ⟨((processCheckout_frame _ _ _ _ _).1).trans
                  (ensureOrderUser_frame _ _).2.2.1,
                ((processCheckout_frame _ _ _ _ _).2.1).trans
                  (ensureOrderUser_frame _ _).2.2.2.1⟩
            | exact ⟨(ensureOrderUser_frame _ _).2.2.1,
                (ensureOrderUser_frame _ _).2.2.2.1⟩

/-- The main shopping flow keeps the order's identity fields. -/
theorem mainFlow_identity (o : PaymentOrder) (orc : ShoppingOracle)
    (senderId : String) (now : Nat) :
    (mainFlow o orc senderId now).1.orderId = o.orderId
    ∧ (mainFlow o orc senderId now).1.companyId = o.companyId := by
  have hc := captureAmount_frame o orc now
  have he := ensureOrderUser_frame (captureAmount o orc now).1 orc.userId
  have hid : (ensureOrderUser (captureAmount o orc now).1 orc.userId).orderId =
      o.orderId := he.2.2.1.trans hc.2.1
  have hcid :
      (ensureOrderUser (captureAmount o orc now).1 orc.userId).companyId =
        o.companyId := he.2.2.2.1.trans hc.2.2.1
  unfold mainFlow
  dsimp only
  split_ifs <;>
    first
      | exact ⟨hid, hcid⟩
      | exact ⟨((processCheckout_frame _ _ _ _ _).1).trans hid,
          ((processCheckout_frame _ _ _ _ _).2.1).trans hcid⟩

/-- One shopping mutation keeps the order's identity fields. -/
theorem shoppingMutate_identity (o : PaymentOrder) (orc : ShoppingOracle)
    (senderId : String) (now : Nat) :
    (shoppingMutate o orc senderId now).1.orderId = o.orderId
    ∧ (shoppingMutate o orc senderId now).1.companyId = o.companyId := by
  unfold shoppingMutate
  cases ho : orc.referred with
  | some rp => exact referredStep_identity o rp orc senderId now
  | none =>
      dsimp only
      split_ifs with h1
      · exact ⟨rfl, rfl⟩
      · exact mainFlow_identity o orc senderId now

/-- The empty slice satisfies the ledger invariant. -/
theorem pairInv_init (cid : String) : PairInv cid initialPairState := by
  refine ⟨?_, ?_, ?_, ?_, ?_⟩ <;> simp [initialPairState]

/-- Mutating the current order in place preserves the ledger invariant,
for any replacement carrying the current id and the pair's tenant. -/
theorem setOrder_inv (cid : String) (st : PairState) (sel u : PaymentOrder)
    (hinv : PairInv cid st) (hmem : sel ∈ st.orders)
    (hcur : st.currentId = some sel.orderId)
    (hid : u.orderId = sel.orderId) (hcid : u.companyId = cid) :
    PairInv cid { st with orders := setOrder st.orders u } := by
  obtain ⟨hbound, howned, hnodup, hvalid, hothers⟩ := hinv
  refine ⟨?_, ?_, ?_, ?_, ?_⟩
  · intro o ho
    rcases mem_setOrder ho with rfl | ⟨ho2, _⟩
    · rw [hid]
      exact hbound sel hmem
    · exact hbound o ho2
  · intro o ho
    rcases mem_setOrder ho with rfl | ⟨ho2, _⟩
    · exact hcid
    · exact howned o ho2
  · show ((setOrder st.orders u).map (fun o => o.orderId)).Nodup
    rw [setOrder_map_orderId]
    exact hnodup
  · intro i hi
    rw [hcur] at hi
    injection hi with hi2
    exact ⟨u, setOrder_mem_self ⟨sel, hmem, hid.symm⟩, by rw [hid, hi2]⟩
  · intro o ho hne
    rcases mem_setOrder ho with rfl | ⟨ho2, hneid⟩
    · exact absurd (by rw [hcur, hid]) hne
    · exact hothers o ho2 hne

/-- Creating an order for the pair preserves the ledger invariant when
every order the current pointer designates is COMPLETED, and the new
order becomes the member the pointer designates. -/
theorem pairCreate_inv (cid ph : String) (st : PairState) (now : Nat)
    (hinv : PairInv cid st)
    (hcur : ∀ o ∈ st.orders, st.currentId = some o.orderId →
        o.state = PaymentState.COMPLETED) :
    PairInv cid (pairCreate cid ph st now).1
    ∧ (pairCreate cid ph st now).2 ∈ (pairCreate cid ph st now).1.orders
    ∧ (pairCreate cid ph st now).1.currentId =
        some (pairCreate cid ph st now).2.orderId
    ∧ (pairCreate cid ph st now).2.companyId = cid := by
  obtain ⟨hbound, howned, hnodup, hvalid, hothers⟩ := hinv
  refine ⟨⟨?_, ?_, ?_, ?_, ?_⟩, ?_, rfl, rfl⟩
  · intro o ho
    rcases List.mem_append.1 ho with h | h
    · exact Nat.lt_succ_of_lt (hbound o h)
    · rw [List.mem_singleton.1 h]
      exact Nat.lt_succ_self _
  · intro o ho
    rcases List.mem_append.1 ho with h | h
    · exact howned o h
    · rw [List.mem_singleton.1 h]
      rfl
  · show (((st.orders ++ [createOrder cid ph st.nextId now]).map
        (fun o => o.orderId))).Nodup
    rw [List.map_append]
    refine List.Nodup.append hnodup (List.nodup_singleton _) ?_
    intro a ha hb
    rcases List.mem_map.1 ha with ⟨o, ho, rfl⟩
    rw [List.map_singleton, List.mem_singleton] at hb
    exact absurd (hb ▸ hbound o ho) (Nat.lt_irrefl _)
  · intro i hi
    injection hi with hi2
    exact ⟨createOrder cid ph st.nextId now,
      List.mem_append.2 (Or.inr (List.mem_singleton.2 rfl)), hi2⟩
  · intro o ho hne
    rcases List.mem_append.1 ho with h | h
    · by_cases hco : st.currentId = some o.orderId
      · exact hcur o h hco
      · exact hothers o h hco
    · rw [List.mem_singleton.1 h] at hne
      exact absurd rfl hne
  · exact List.mem_append.2 (Or.inr (List.mem_singleton.2 rfl))

/-- The order-selection prologue preserves the invariant and returns a
member order the current pointer designates, owned by the tenant. -/
theorem selectOrCreate_props (cid ph : String) (st : PairState) (now : Nat)
    (hinv : PairInv cid st) :
    PairInv cid (selectOrCreate cid ph st now).1
    ∧ (selectOrCreate cid ph st now).2 ∈ (selectOrCreate cid ph st now).1.orders
    ∧ (selectOrCreate cid ph st now).1.currentId =
        some (selectOrCreate cid ph st now).2.orderId
    ∧ (selectOrCreate cid ph st now).2.companyId = cid := by
  obtain ⟨hbound, howned, hnodup, hvalid, hothers⟩ := hinv
  unfold selectOrCreate
  cases hc : st.currentId.bind (findById st.orders) with
  | none =>
      have hcur : ∀ o ∈ st.orders, st.currentId = some o.orderId →
          o.state = PaymentState.COMPLETED := by
        intro o ho hco
        cases hcid : st.currentId with
        | none => rw [hcid] at hco; cases hco
        | some i =>
            rw [hcid] at hc
            have hc2 : findById st.orders i = none := hc
            rcases hvalid i hcid with ⟨q, hq, hqid⟩
            have := List.find?_eq_none.1 hc2 q hq
            exact absurd (beq_iff_eq.mpr hqid) this
      have hp := pairCreate_inv cid ph st now
        ⟨hbound, howned, hnodup, hvalid, hothers⟩ hcur
      dsimp only
      rw [if_pos (beq_iff_eq.mpr hp.2.2.2)]
      exact hp
  | some ord =>
      have hmem : ord ∈ st.orders := by
        cases hcid : st.currentId with
        | none => rw [hcid] at hc; cases hc
        | some i =>
            rw [hcid] at hc
            have hc2 : findById st.orders i = some ord := hc
            exact List.mem_of_find?_eq_some hc2
      have hoid : st.currentId = some ord.orderId := by
        cases hcid : st.currentId with
        | none => rw [hcid] at hc; cases hc
        | some i =>
            rw [hcid] at hc
            have hc2 : st.orders.find? (fun o => o.orderId == i) = some ord := hc
            have := List.find?_some hc2
            rw [beq_iff_eq.mp this]
      by_cases hst : ord.state == PaymentState.COMPLETED
      · have hcur : ∀ o ∈ st.orders, st.currentId = some o.orderId →
            o.state = PaymentState.COMPLETED := by
          intro o ho hco
          rw [hoid] at hco
          injection hco with hco2
          have : o = ord := List.inj_on_of_nodup_map hnodup ho hmem hco2.symm
          rw [this]
          exact beq_iff_eq.mp hst
        have hp := pairCreate_inv cid ph st now
          ⟨hbound, howned, hnodup, hvalid, hothers⟩ hcur
        dsimp only
        rw [if_pos hst, if_pos (beq_iff_eq.mpr hp.2.2.2)]
        exact hp
      · dsimp only
        rw [if_neg hst, if_pos (beq_iff_eq.mpr (howned ord hmem))]
        exact ⟨⟨hbound, howned, hnodup, hvalid, hothers⟩, hmem, hoid,
          howned ord hmem⟩

/-- One shopping step preserves the ledger invariant. -/
theorem shoppingStep_inv (cid ph : String) (st : PairState)
    (orc : ShoppingOracle) (now : Nat) (hinv : PairInv cid st) :
    PairInv cid (shoppingStep cid ph st orc now).1 := by
  obtain ⟨h1, h2, h3, h4⟩ := selectOrCreate_props cid ph st now hinv
  unfold shoppingStep
  dsimp only
  refine setOrder_inv cid _ (selectOrCreate cid ph st now).2 _ h1 h2 h3 ?_ ?_
  · exact (shoppingMutate_identity _ orc ph now).1
  · exact ((shoppingMutate_identity _ orc ph now).2).trans h4

/-- Every reachable slice satisfies the ledger invariant. -/
theorem runShopping_inv (cid ph : String)
    (steps : List (ShoppingOracle × Nat)) :
    PairInv cid (runShopping cid ph steps) := by
  unfold runShopping
  suffices h : ∀ st, PairInv cid st →
      PairInv cid (steps.foldl
        (fun st p => (shoppingStep cid ph st p.1 p.2).1) st) from
    h initialPairState (pairInv_init cid)
  induction steps with
  | nil => intro st h; exact h
  | cons hd tl ih =>
      intro st h
      exact ih _ (shoppingStep_inv cid ph st hd.1 hd.2 h)

/-- C3: along any sequence of shopping/checkout triggers of one
(tenant, buyer) pair, at most one of the pair's orders is in a
non-terminal state; the handler reuses the current order while it is
not COMPLETED, and creates a fresh order (a new id unused by any
existing order, in state CART) exactly when the pair has no current
order or its current order is COMPLETED. -/
theorem single_active_order_per_buyer (cid ph : String)
    (steps : List (ShoppingOracle × Nat)) :
    AtMostOneActive (runShopping cid ph steps).orders
    ∧ (∀ now ord, (runShopping cid ph steps).currentId.bind
          (findById (runShopping cid ph steps).orders) = some ord →
        ord.state ≠ PaymentState.COMPLETED →
        selectOrCreate cid ph (runShopping cid ph steps) now =
          (runShopping cid ph steps, ord))
    ∧ (∀ now, ((runShopping cid ph steps).currentId.bind
          (findById (runShopping cid ph steps).orders) = none ∨
        (∃ ord, (runShopping cid ph steps).currentId.bind
            (findById (runShopping cid ph steps).orders) = some ord ∧
          ord.state = PaymentState.COMPLETED)) →
        (selectOrCreate cid ph (runShopping cid ph steps) now).2 =
          createOrder cid ph (runShopping cid ph steps).nextId now
        ∧ (selectOrCreate cid ph (runShopping cid ph steps) now).2.state =
            PaymentState.CART
        ∧ ∀ o ∈ (runShopping cid ph steps).orders,
            o.orderId ≠
              (selectOrCreate cid ph (runShopping cid ph steps) now).2.orderId) := by
  obtain ⟨hbound, howned, hnodup, hvalid, hothers⟩ := runShopping_inv cid ph steps
  refine ⟨?_, ?_, ?_⟩
  · intro a ha b hb hane hbne
    have hca : (runShopping cid ph steps).currentId = some a.orderId := by
      by_contra hc
      exact hane (hothers a ha hc)
    have hcb : (runShopping cid ph steps).currentId = some b.orderId := by
      by_contra hc
      exact hbne (hothers b hb hc)
    rw [hca] at hcb
    injection hcb with hab
    exact List.inj_on_of_nodup_map hnodup ha hb hab
  · intro now ord hord hne
    have hmem : ord ∈ (runShopping cid ph steps).orders := by
      cases hcid : (runShopping cid ph steps).currentId with
      | none => rw [hcid] at hord; cases hord
      | some i =>
          rw [hcid] at hord
          have hord2 : findById (runShopping cid ph steps).orders i =
              some ord := hord
          exact List.mem_of_find?_eq_some hord2
    have hst : ¬((ord.state == PaymentState.COMPLETED) = true) := by
      simpa using hne
    have hcond : (((runShopping cid ph steps, ord) :
        PairState × PaymentOrder).2.companyId == cid) = true :=
      beq_iff_eq.mpr (howned ord hmem)
    unfold selectOrCreate
    rw [hord]
    dsimp only
    rw [if_neg hst, if_pos hcond]
  · intro now h
    unfold selectOrCreate
    rcases h with h | ⟨ord, hord, hcompl⟩
    · rw [h]
      dsimp only
      have hcond : ((pairCreate cid ph (runShopping cid ph steps)
          now).2.companyId == cid) = true := beq_iff_eq.mpr rfl
      rw [if_pos hcond]
      exact ⟨rfl, rfl, fun o ho => Nat.ne_of_lt (hbound o ho)⟩
    · rw [hord]
      dsimp only
      have hst : (ord.state == PaymentState.COMPLETED) = true :=
        beq_iff_eq.mpr hcompl
      have hcond : ((pairCreate cid ph (runShopping cid ph steps)
          now).2.companyId == cid) = true := beq_iff_eq.mpr rfl
      rw [if_pos hst, if_pos hcond]
      exact ⟨rfl, rfl, fun o ho => Nat.ne_of_lt (hbound o ho)⟩

/-- C3 witness: the three-message demo conversation keeps at most one
active order, and on the empty slice the selection creates order 0 in
CART. -/
theorem single_active_order_per_buyer_witness :
    AtMostOneActive (runShopping "tenant-1" "59170001" demoSteps).orders
    ∧ (selectOrCreate "tenant-1" "59170001"
        (runShopping "tenant-1" "59170001" []) 5).2 =
      createOrder "tenant-1" "59170001" 0 5 :=
  ⟨(single_active_order_per_buyer "tenant-1" "59170001" demoSteps).1,
   ((single_active_order_per_buyer "tenant-1" "59170001" []).2.2 5
      (Or.inl rfl)).1⟩

end OptSMS
